import Mathlib

/-!
Shallow embedding of the discovery pipeline of `ec-scraper`
(`scripts/quick_discovery.py` and `src/search/searxng_client.py`).

Python floats are modelled as rationals; every comparison the pipeline
performs on them (`confidence < 0.4`) is exact at the values involved, so
the model is faithful for those comparisons.  Strings are Lean `String`;
Python `str.lower()` is modelled with `Char.toLower` (all denylist and
marker strings are ASCII).  Optional values (`None`) are `Option`.
Network calls and the database are oracles passed as function arguments.
-/

/-- Python substring test `pat in hay`, on character lists. -/
def listContains (pat : List Char) : List Char → Bool
  | [] => pat.isEmpty
  | c :: t => pat.isPrefixOf (c :: t) || listContains pat t

/-- Python substring test `pat in hay` for strings. -/
def strContains (hay pat : String) : Bool :=
  listContains pat.data hay.data

/-- The timing enum `OpportunityTiming` from `src/db/models.py`
(values used by the pipeline). -/
inductive OpportunityTiming
  | ONE_TIME
  | ANNUAL
  | RECURRING
  | SEASONAL
deriving DecidableEq, Repr

/-- The extracted opportunity card (`ec`), with the fields the pipeline
reads or writes.  `ec_type` holds the `.value` string of the type enum,
`organization` and `location` may be Python `None`. -/
structure ECCard where
  title : String
  organization : Option String
  ec_type : String
  location : Option String
  is_expired : Bool
  timing_type : OpportunityTiming
  recheck_days : Int
deriving DecidableEq, Repr

/-- The extraction agent outcome: `success`, optional `error`, optional
card, optional confidence (`None` is treated as 0.0 downstream). -/
structure Extraction where
  success : Bool
  error : Option String
  ec_card : Option ECCard
  confidence : Option ℚ
deriving DecidableEq, Repr

/-- A crawl outcome as produced by the crawler client. -/
structure CrawlResult where
  url : String
  success : Bool
  markdown : Option String
  error : Option String
deriving DecidableEq, Repr

/-- Python rendering of an optional string inside an f-string
(`None` prints as the text `None`). -/
def pyStr : Option String → String
  | none => "None"
  | some s => s

/-- Python `"%.2f"`-style rendering of a rational, used only inside the
low-confidence message text (no claim inspects this string). -/
def fmt2 (q : ℚ) : String :=
  let n : Int := round (q * 100)
  let sign := if n < 0 then "-" else ""
  let m := n.natAbs
  sign ++ toString (m / 100) ++ "." ++ (if m % 100 < 10 then "0" else "") ++ toString (m % 100)

/-- The rejection reasons of the per-URL pipeline, one constructor per
`return {"error": ...}` site; `exc` is the generic `except Exception`
branch (message already truncated to 100 characters). -/
inductive Reason
  | crawlFailed (err : Option String)
  | contentTooShort (n : Nat)
  | extractionFailed (err : Option String)
  | noCard
  | lowConfidence (c : ℚ)
  | genericExtraction
  | rankingArticle (title : String)
  | expiredOneTime
  | exc (msg : String)
deriving DecidableEq, Repr

/-- The error message text of each rejection reason, exactly as the
f-strings in `quick_discovery.py` render it. -/
def Reason.msg : Reason → String
  | .crawlFailed e => "Crawl failed: " ++ pyStr e
  | .contentTooShort n => "Content too short: " ++ toString n ++ " chars"
  | .extractionFailed e => "Extraction failed: " ++ pyStr e
  | .noCard => "No card extracted"
  | .lowConfidence c => "Low confidence: " ++ fmt2 c
  | .genericExtraction => "Generic extraction"
  | .rankingArticle t => "Ranking article: " ++ t
  | .expiredOneTime => "Expired one-time opportunity (deadline/end date in the past)"
  | .exc m => m

/-- The acceptance decision on one extraction outcome: reject with a
reason, or accept a (possibly mutated) card that is then upserted. -/
inductive Decision
  | reject (r : Reason)
  | accept (ec : ECCard)
deriving DecidableEq, Repr

/-- The ranking-article marker list of the single-query path
(`process_url`, line 71). -/
def rankingMarkersSingle : List String :=
  ["best ", "top ", "ranking", "list of", "94 ", "100 "]

/-- The ranking-article marker list of the batch path
(`extract_and_save`, line 224). -/
def rankingMarkersBatch : List String :=
  ["best ", "top ", "ranking", "list of"]

/-- The acceptance filter of `process_url` (lines 53-81): the decision
logic applied to one extraction outcome, rules in source order. -/
def process_url_decide (extraction : Extraction) : Decision :=
  if extraction.success = false then
    .reject (.extractionFailed extraction.error)
  else
    match extraction.ec_card with
    | none => .reject .noCard
    | some ec =>
      let confidence := extraction.confidence.getD 0
      if confidence < (0.4 : ℚ) then .reject (.lowConfidence confidence)
      else if ec.title = "Unknown Opportunity" ∨
          ec.organization ∈ [some "Unknown", none, some ""] then
        .reject .genericExtraction
      else
        let title_lower := ec.title.toLower
        if rankingMarkersSingle.any (fun skip => strContains title_lower skip) then
          .reject (.rankingArticle ec.title)
        else if ec.is_expired = true ∧ ec.timing_type = .ONE_TIME then
          .reject .expiredOneTime
        else if ec.is_expired = true ∧
            ec.timing_type ∈ [OpportunityTiming.ANNUAL, .RECURRING, .SEASONAL] then
          .accept { ec with recheck_days := 3 }
        else
          .accept ec

/-- The acceptance filter of `extract_and_save` (lines 206-234): same
rule order, but with the batch marker list. -/
def extract_and_save_decide (extraction : Extraction) : Decision :=
  if extraction.success = false then
    .reject (.extractionFailed extraction.error)
  else
    match extraction.ec_card with
    | none => .reject .noCard
    | some ec =>
      let confidence := extraction.confidence.getD 0
      if confidence < (0.4 : ℚ) then .reject (.lowConfidence confidence)
      else if ec.title = "Unknown Opportunity" ∨
          ec.organization ∈ [some "Unknown", none, some ""] then
        .reject .genericExtraction
      else
        let title_lower := ec.title.toLower
        if rankingMarkersBatch.any (fun skip => strContains title_lower skip) then
          .reject (.rankingArticle ec.title)
        else if ec.is_expired = true ∧ ec.timing_type = .ONE_TIME then
          .reject .expiredOneTime
        else if ec.is_expired = true ∧
            ec.timing_type ∈ [OpportunityTiming.ANNUAL, .RECURRING, .SEASONAL] then
          .accept { ec with recheck_days := 3 }
        else
          .accept ec

/-- The per-URL outcome dict: either an error record or a success record.
`successRes` carries the full (possibly mutated) card handed to
`sync.upsert_opportunity`; the emitted event projects it. -/
inductive UrlResult
  | errorRes (reason : Reason) (url : String)
  | successRes (url : String) (ec : ECCard)
deriving DecidableEq, Repr

/-- `extract_and_save` of the batch path (lines 195-258).  `extractor`
is the extraction-agent oracle; `upsertErr` models whether
`sync.upsert_opportunity` raises (`some msg`) or succeeds (`none`); an
exception there is caught by the enclosing `except` and truncated. -/
def extract_and_save (extractor : String → String → Extraction)
    (upsertErr : ECCard → Option String) (cr : CrawlResult) : UrlResult :=
  if cr.success = false then .errorRes (.crawlFailed cr.error) cr.url
  else
    let content_len := (cr.markdown.getD "").length
    if content_len < 100 then .errorRes (.contentTooShort content_len) cr.url
    else
      let extraction := extractor (cr.markdown.getD "") cr.url
      match extract_and_save_decide extraction with
      | .reject r => .errorRes r cr.url
      | .accept ec =>
        match upsertErr ec with
        | some msg => .errorRes (.exc (msg.take 100)) cr.url
        | none => .successRes cr.url ec

/-- `process_url` of the single-query path (lines 36-99): crawl one URL
through the `crawler` oracle, then the same stages with the single-path
marker list. -/
def process_url (crawler : String → CrawlResult)
    (extractor : String → String → Extraction)
    (upsertErr : ECCard → Option String) (url : String) : UrlResult :=
  let crawl_result := crawler url
  if crawl_result.success = false then
    .errorRes (.crawlFailed crawl_result.error) url
  else
    let content_len := (crawl_result.markdown.getD "").length
    if content_len < 100 then .errorRes (.contentTooShort content_len) url
    else
      let extraction := extractor (crawl_result.markdown.getD "") url
      match process_url_decide extraction with
      | .reject r => .errorRes r url
      | .accept ec =>
        match upsertErr ec with
        | some msg => .errorRes (.exc (msg.take 100)) url
        | none => .successRes url ec

/-- A search result from the SearXNG client (`SearchResult` dataclass in
`src/search/searxng_client.py`). -/
structure SearchResult where
  url : String
  title : String
  snippet : String
  engine : String
  score : ℚ := 0
deriving DecidableEq, Repr

/-- One item of the `results` list of a SearXNG JSON payload (fields the
client reads; the `.get` defaults of absent keys are inlined). -/
structure RawResult where
  url : String
  title : String
  content : String
  engine : String
  score : ℚ
deriving DecidableEq, Repr

/-- One entry of an infobox `urls` list. -/
structure RawInfoboxUrl where
  url : String
  title : String
deriving DecidableEq, Repr

/-- One item of the `infoboxes` list of a SearXNG JSON payload. -/
structure RawInfobox where
  infobox : String
  content : String
  engine : String
  urls : List RawInfoboxUrl
deriving DecidableEq, Repr

/-- A parsed SearXNG JSON payload. -/
structure SearxPayload where
  results : List RawResult
  infoboxes : List RawInfobox
deriving DecidableEq, Repr

/-- The possible outcomes of the HTTP round trip inside
`SearXNGClient.search`: an `aiohttp.ClientError`, any other exception,
or a response with a status code and a body that parses as JSON or not. -/
inductive HttpOutcome
  | clientError (msg : String)
  | otherExc (msg : String)
  | response (status : Nat) (body : Except String SearxPayload)
deriving Repr

/-- `SearXNGClient.search` (lines 50-132): non-200 statuses, transport
errors and any other exception all degrade to an empty list; on a 200
response the `results` list is capped at `max_results` and then up to 3
URLs per infobox are appended. -/
def searxng_search (outcome : HttpOutcome) (max_results : Nat) : List SearchResult :=
  match outcome with
  | .clientError _ => []
  | .otherExc _ => []
  | .response status body =>
    if status ≠ 200 then []
    else
      match body with
      | .error _ => []
      | .ok data =>
        ((data.results.take max_results).map fun item =>
          { url := item.url, title := item.title, snippet := item.content,
            engine := item.engine, score := item.score }) ++
        (data.infoboxes.flatMap fun ib =>
          (ib.urls.take 3).map fun ui =>
            { url := ui.url, title := ib.infobox ++ ": " ++ ui.title,
              snippet := ib.content, engine := ib.engine, score := 0.9 })

/-- Structured events of the JSON event stream (`emit_event` calls). -/
inductive Event
  | plan (message : String)
  | search (query : String)
  | found (url : String) (source : String)
  | analyzing (url : String)
  | extracted (title : String) (organization : Option String)
      (ec_type : String) (location : Option String)
  | error (message : String)
  | complete (count : Nat)
deriving DecidableEq, Repr

/-- The event emitted for one per-URL result by the loop at lines
264-272: every result yields exactly one event. -/
def resultEvent : UrlResult → Event
  | .successRes _ ec => .extracted ec.title ec.organization ec.ec_type ec.location
  | .errorRes r url => .error (url ++ ": " ++ r.msg)

/-- True on a `successRes`, as tested by `result.get("success")`. -/
def isSuccess : UrlResult → Bool
  | .successRes _ _ => true
  | .errorRes _ _ => false

/-- `do_search` (lines 151-158): emit a `search` event, then call the
search client; any exception is caught and becomes an empty list.  The
oracle `searchFn` returns `Except.error` when the awaited call raises. -/
def do_search (searchFn : String → Except String (List SearchResult))
    (q : String) : Event × List SearchResult :=
  (.search q, match searchFn q with
    | .ok rs => rs
    | .error _ => [])

/-- The denylist `skip_patterns` (lines 164-169). -/
def skip_patterns : List String :=
  ["reddit.com", "quora.com", "forum", "discussion", "blog",
   "linkedin.com", "facebook.com", "twitter.com", "x.com",
   "instagram.com", "tiktok.com", "indeed.com", "glassdoor.com",
   "ziprecruiter.com", "youtube.com", "pinterest.com"]

/-- One iteration of the URL collection loop (lines 171-178): skip
denylisted URLs, add new URLs to the set (modelled as an
insertion-ordered duplicate-free list) and emit a `found` event. -/
def collectStep (acc : List String × List Event) (result : SearchResult) :
    List String × List Event :=
  let url_lower := result.url.toLower
  if skip_patterns.any (fun skip => strContains url_lower skip) then acc
  else if result.url ∈ acc.1 then acc
  else (acc.1 ++ [result.url],
        acc.2 ++ [.found result.url (if result.title = "" then "Web Result" else result.title)])

/-- The whole URL collection loop over all search result lists. -/
def collectUrls (search_results : List (List SearchResult)) :
    List String × List Event :=
  (search_results.flatten).foldl collectStep ([], [])

/-- Strip characters satisfying `p` from both ends of a string
(Python `str.strip` with a character class). -/
def stripEnds (p : Char → Bool) (s : String) : String :=
  ⟨((s.data.dropWhile p).reverse.dropWhile p).reverse⟩

/-- The characters Python `str.strip()` removes: those for which
`str.isspace()` is true — ASCII whitespace including vertical tab (11)
and form feed (12), the separator controls 28-31, next line (133),
no-break space (160), ogham space mark (5760), the Unicode spaces
8192-8202, line and paragraph separators (8232, 8233), narrow no-break
space (8239), medium mathematical space (8287) and ideographic space
(12288). -/
def pyStrWhitespace : List Char :=
  [Char.ofNat 9, Char.ofNat 10, Char.ofNat 11, Char.ofNat 12, Char.ofNat 13,
   Char.ofNat 28, Char.ofNat 29, Char.ofNat 30, Char.ofNat 31, Char.ofNat 32,
   Char.ofNat 133, Char.ofNat 160, Char.ofNat 5760,
   Char.ofNat 8192, Char.ofNat 8193, Char.ofNat 8194, Char.ofNat 8195,
   Char.ofNat 8196, Char.ofNat 8197, Char.ofNat 8198, Char.ofNat 8199,
   Char.ofNat 8200, Char.ofNat 8201, Char.ofNat 8202,
   Char.ofNat 8232, Char.ofNat 8233, Char.ofNat 8239, Char.ofNat 8287,
   Char.ofNat 12288]

/-- Python `str.isspace()` on one character. -/
def pyIsSpace (c : Char) : Bool := c ∈ pyStrWhitespace

/-- The cleanup `db_url.strip().strip(dquote).strip(squote)` at line 108. -/
def dbUrlClean (s : String) : String :=
  stripEnds (fun c => c = Char.ofNat 39)
    (stripEnds (fun c => c = Char.ofNat 34)
      (stripEnds pyIsSpace s))

/-- The configuration check of lines 106-112: `DATABASE_URL` must be
present and non-empty after cleanup (an absent variable, and a value
that is empty once stripped, both fail the `if not db_url` test). -/
def dbConfigured (env : Option String) : Bool :=
  match env with
  | none => false
  | some s => dbUrlClean s ≠ ""

/-- The five templated search queries (lines 141-148). -/
def search_queries (base_query : String) (current_year : Nat) : List String :=
  ["high school " ++ base_query ++ " summer program " ++ toString current_year,
   base_query ++ " internship for high school students",
   base_query ++ " research opportunities for high schoolers",
   base_query ++ " competitions high school " ++ toString current_year,
   base_query ++ " volunteer work for teens"]

/-- A single-quote character as a string (used in the first plan
message). -/
def sQuote : String := ⟨[Char.ofNat 39]⟩

/-- The event trace of one `main(query)` run as observed on stdout,
including the terminal error line the `__main__` handler prints when an
exception escapes `main` (lines 102-275 and 284-288).  Oracles:
`initErr` is the exception, if any, raised during initialization
between the configuration check and the search phase (`get_settings`,
the client constructors and `sync.connect()`, lines 115-122; the
embedding initialization of lines 127-132 is caught locally and emits
no event); `searchFn` is the awaited search call per query
(`Except.error` when it raises); `iterOrder` is the iteration order of
the Python set `all_urls` observed by `list(all_urls)` (an unspecified
permutation of the collected URLs); `crawlBatch` is
`crawler.crawl_batch`, whose per-URL contract does not raise;
`extractor` and `upsertErr` as in `extract_and_save`; `closeErr` is the
exception, if any, raised by `sync.close()` at line 275, which runs
after the `complete` event.  Each `do_search` task emits its `search`
event before its first await, so with cooperative scheduling all
`search` events precede the collection loop. -/
def mainEvents (query : String) (dbEnv : Option String) (current_year : Nat)
    (initErr : Option String)
    (searchFn : String → Except String (List SearchResult))
    (iterOrder : List String)
    (crawlBatch : List String → List CrawlResult)
    (extractor : String → String → Extraction)
    (upsertErr : ECCard → Option String)
    (closeErr : Option String) : List Event :=
  let ev0 : List Event := [.plan ("Analyzing request: " ++ sQuote ++ query ++ sQuote)]
  if dbConfigured dbEnv = false then
    ev0 ++ [.error "DATABASE_URL not found"]
  else
    match initErr with
    | some msg => ev0 ++ [.error msg]
    | none =>
      let base_query := stripEnds pyIsSpace query
      let queries := search_queries base_query current_year
      let searchPairs := queries.map (do_search searchFn)
      let searchEvents := searchPairs.map Prod.fst
      let search_results := searchPairs.map Prod.snd
      let collected := collectUrls search_results
      let all_urls := collected.1
      let foundEvents := collected.2
      let urls_to_process := iterOrder.take 10
      let planMsg := "Found " ++ toString all_urls.length ++ " sources. Analyzing "
        ++ toString urls_to_process.length ++ " in parallel..."
      let analyzingEvents := urls_to_process.map Event.analyzing
      let crawl_results := crawlBatch urls_to_process
      let results := crawl_results.map (extract_and_save extractor upsertErr)
      let resultEvents := results.map resultEvent
      let success_count := results.countP isSuccess
      ev0 ++ [.plan "Generating targeted high school search strategies..."]
        ++ searchEvents ++ foundEvents ++ [.plan planMsg] ++ analyzingEvents
        ++ resultEvents ++ [.complete success_count]
        ++ (match closeErr with
            | some msg => [.error msg]
            | none => [])

/-- The phase of one extraction task of the batch path with respect to
`extraction_semaphore = asyncio.Semaphore(5)` (line 193): before
`async with`, inside it (an extraction call in flight), or after. -/
inductive TaskPhase
  | pre
  | inSem
  | post
deriving DecidableEq, Repr

/-- Number of extraction calls in flight in a scheduler state. -/
def inFlight (s : List TaskPhase) : Nat :=
  s.countP fun t => t == TaskPhase.inSem

/-- One scheduler step of the semaphore protocol of `extract_and_save`:
a task enters the semaphore only when fewer than 5 tasks hold it
(admission depends only on the global count, not on which task asks),
and any holder may leave. -/
inductive SemStep : List TaskPhase → List TaskPhase → Prop
  | acquire (s : List TaskPhase) (i : Nat) (h : s.get? i = some .pre)
      (hlt : inFlight s < 5) : SemStep s (s.set i .inSem)
  | leave (s : List TaskPhase) (i : Nat) (h : s.get? i = some .inSem) :
      SemStep s (s.set i .post)

/-- States reachable from `n` tasks all waiting (the state right after
`asyncio.gather` schedules the `extract_and_save` coroutines). -/
inductive SemReachable (n : Nat) : List TaskPhase → Prop
  | refl : SemReachable n (List.replicate n .pre)
  | step {s t : List TaskPhase} : SemReachable n s → SemStep s t → SemReachable n t

/-- True exactly on `complete` events. -/
def isCompleteEv : Event → Bool
  | .complete _ => true
  | _ => false

/-- True exactly on `extracted` events. -/
def isExtractedEv : Event → Bool
  | .extracted _ _ _ _ => true
  | _ => false

/-- True exactly on a `found` event for the given URL. -/
def isFoundFor (u : String) : Event → Bool
  | .found u2 _ => u2 == u
  | _ => false

/-- The denylist test applied to a URL, as in lines 173-174. -/
def urlDenylisted (u : String) : Bool :=
  skip_patterns.any fun skip => strContains u.toLower skip

/-- Fixture: a well-formed, non-expired card. -/
def ecFix : ECCard :=
  { title := "Chess Research Fellowship", organization := some "Acme Labs",
    ec_type := "internship", location := some "Boston",
    is_expired := false, timing_type := .ONE_TIME, recheck_days := 30 }

/-- Fixture: successful extraction of `ecFix` with confidence 0.2. -/
def exLow : Extraction :=
  { success := true, error := none, ec_card := some ecFix, confidence := some (0.2 : ℚ) }

/-- Fixture: successful extraction of `ecFix` with confidence exactly 0.4. -/
def exBoundary : Extraction :=
  { success := true, error := none, ec_card := some ecFix, confidence := some (0.4 : ℚ) }

/-- Fixture: an expired annual card. -/
def ecC2 : ECCard := { ecFix with is_expired := true, timing_type := .ANNUAL }

/-- Fixture: extraction of the expired annual card with confidence 0. -/
def exC2 : Extraction :=
  { success := true, error := none, ec_card := some ecC2, confidence := some 0 }

/-- Fixture: an expired one-time card. -/
def ecC2one : ECCard := { ecFix with is_expired := true }

/-- Fixture: high-confidence extraction of the expired one-time card. -/
def exC2one : Extraction :=
  { success := true, error := none, ec_card := some ecC2one, confidence := some (0.9 : ℚ) }

/-- Fixture: high-confidence extraction of the expired annual card. -/
def exC2ann : Extraction :=
  { success := true, error := none, ec_card := some ecC2, confidence := some (0.9 : ℚ) }

/-- Fixture: a card whose title contains the numeric marker `94 ` and no
other ranking marker. -/
def ecC3 : ECCard := { ecFix with title := "94 summer programs for teens" }

/-- Fixture: high-confidence extraction of `ecC3`. -/
def exC3 : Extraction :=
  { success := true, error := none, ec_card := some ecC3, confidence := some (0.9 : ℚ) }

/-- Fixture: eleven distinct non-denylisted search results. -/
def c4results : List SearchResult :=
  (List.range 11).map fun i =>
    { url := "https://site" ++ toString i ++ ".org", title := "S" ++ toString i,
      snippet := "", engine := "e", score := 0 }

/-- Fixture: the eleven URLs of `c4results` in discovery order. -/
def c4urls : List String :=
  (List.range 11).map fun i => "https://site" ++ toString i ++ ".org"

/-- Fixture: search result lists with a denylisted URL and a duplicate. -/
def c5sr : List (List SearchResult) :=
  [[{ url := "https://www.reddit.com/r/teens", title := "R", snippet := "", engine := "e", score := 0 },
    { url := "https://example.org/a", title := "A", snippet := "", engine := "e", score := 0 },
    { url := "https://example.org/a", title := "A2", snippet := "", engine := "e", score := 0 }],
   [{ url := "https://example.org/a", title := "A", snippet := "", engine := "e", score := 0 }]]

/-- Fixture: a SearXNG payload with one regular result and one infobox
URL. -/
def payloadC10 : SearxPayload :=
  { results := [{ url := "https://a.org", title := "A", content := "", engine := "w", score := 1 }],
    infoboxes := [{ infobox := "Wiki", content := "", engine := "wikipedia",
                    urls := [{ url := "https://b.org", title := "B" }] }] }

/-- Fixture: an extraction-agent oracle returning a fixed outcome. -/
def exOracle : String → String → Extraction := fun _ _ => exC2ann

/-- Fixture: an upsert oracle that never raises. -/
def upNone : ECCard → Option String := fun _ => none

/-- Fixture: a successful crawl whose markdown has exactly 40 characters. -/
def crC7 : CrawlResult :=
  { url := "https://ex.org/page", success := true,
    markdown := some "0123456789012345678901234567890123456789", error := none }

/-- Fixture: a search oracle returning one fixed result. -/
def c8SearchFn : String → Except String (List SearchResult) :=
  fun _ => .ok [{ url := "https://example.org/a", title := "Example", snippet := "",
                  engine := "e", score := 0 }]

/-- Fixture: a crawler oracle returning an empty-markdown success per URL. -/
def c8Crawl : List String → List CrawlResult :=
  fun us => us.map fun u => { url := u, success := true, markdown := some "", error := none }

/-- C1: an extraction outcome whose confidence (absent counting as 0.0)
is below 0.4 is never accepted by the acceptance filter of either call
site, regardless of all other field values; and an outcome whose
confidence is exactly 0.4 is never rejected with the low-confidence
reason (the threshold is strict). -/
theorem C1_low_confidence_rejects (e : Extraction) :
    (e.confidence.getD 0 < (0.4 : ℚ) →
      (∀ ec, process_url_decide e ≠ .accept ec) ∧
      (∀ ec, extract_and_save_decide e ≠ .accept ec)) ∧
    (e.confidence = some (0.4 : ℚ) →
      (∀ c, process_url_decide e ≠ .reject (.lowConfidence c)) ∧
      (∀ c, extract_and_save_decide e ≠ .reject (.lowConfidence c))) := by
  constructor
  · intro hlt
    constructor
    · intro ec hacc
      unfold process_url_decide at hacc
      repeat' (first | (split at hacc) | simp_all)
    · intro ec hacc
      unfold extract_and_save_decide at hacc
      repeat' (first | (split at hacc) | simp_all)
  · intro h04
    have hnlt : ¬ ((0.4:ℚ) < 0.4) := by with_unfolding_all decide
    constructor
    · intro c hrej
      unfold process_url_decide at hrej
      simp only [h04, Option.getD_some] at hrej
      repeat' split at hrej
      all_goals simp_all [hnlt]
    · intro c hrej
      unfold extract_and_save_decide at hrej
      simp only [h04, Option.getD_some] at hrej
      repeat' split at hrej
      all_goals simp_all [hnlt]

/-- Witness for C1 at confidence 0.2 (rejected) and exactly 0.4 (not
rejected by the confidence rule). -/
theorem C1_low_confidence_rejects_witness :
    process_url_decide exLow ≠ .accept ecFix ∧
    extract_and_save_decide exBoundary ≠ .reject (.lowConfidence (0.4 : ℚ)) :=
  ⟨((C1_low_confidence_rejects exLow).1 (by with_unfolding_all decide)).1 ecFix,
   ((C1_low_confidence_rejects exBoundary).2 rfl).2 (0.4 : ℚ)⟩

/-- C2 counterexample: an expired annual record whose extraction has
confidence 0 is rejected by the low-confidence rule, so the filter does
not accept it with `recheck_days` set to 3 as the claim states. -/
theorem C2_counterexample :
    ecC2.is_expired = true ∧ ecC2.timing_type = .ANNUAL ∧
    extract_and_save_decide exC2 = .reject (.lowConfidence 0) ∧
    extract_and_save_decide exC2 ≠ .accept { ecC2 with recheck_days := 3 } := by
  with_unfolding_all decide

/-- C2 (amended): an expired one-time record is never accepted by either
call site; an expired annual, recurring or seasonal record that passes
the earlier rules (successful extraction, confidence at least 0.4,
non-generic, no ranking marker) is accepted with `recheck_days` forced
to 3 by both call sites; the two branches exclude each other. -/
theorem C2_expiry_rules (e : Extraction) (ec : ECCard)
    (hcard : e.ec_card = some ec) (hexp : ec.is_expired = true) :
    (ec.timing_type = .ONE_TIME →
      (∀ ec2, process_url_decide e ≠ .accept ec2) ∧
      (∀ ec2, extract_and_save_decide e ≠ .accept ec2)) ∧
    (e.success = true →
      ¬ (e.confidence.getD 0 < (0.4:ℚ)) →
      ¬ (ec.title = "Unknown Opportunity" ∨ ec.organization ∈ [some "Unknown", none, some ""]) →
      (rankingMarkersSingle.any fun skip => strContains ec.title.toLower skip) = false →
      ec.timing_type ∈ [OpportunityTiming.ANNUAL, .RECURRING, .SEASONAL] →
      process_url_decide e = .accept { ec with recheck_days := 3 } ∧
      extract_and_save_decide e = .accept { ec with recheck_days := 3 }) := by
  constructor
  · intro hone
    constructor
    · intro ec2 hacc
      unfold process_url_decide at hacc
      repeat' (first | (split at hacc) | simp_all)
    · intro ec2 hacc
      unfold extract_and_save_decide at hacc
      repeat' (first | (split at hacc) | simp_all)
  · intro hsucc hconf hgen hrank htimem
    have hne : ec.timing_type ≠ .ONE_TIME := by
      intro h; rw [h] at htimem; simp at htimem
    have hrankB : (rankingMarkersBatch.any fun skip => strContains ec.title.toLower skip) = false := by
      simp only [rankingMarkersSingle, rankingMarkersBatch, List.any_cons, List.any_nil,
        Bool.or_eq_false_iff] at hrank ⊢
      tauto
    simp only [List.mem_cons, List.not_mem_nil, or_false] at hgen
    push_neg at hgen
    constructor
    · unfold process_url_decide
      simp [hsucc, hcard, hconf, hgen, hrank, hne, hexp, htimem]
    · unfold extract_and_save_decide
      simp [hsucc, hcard, hconf, hgen, hrankB, hne, hexp, htimem]

/-- Witness for C2 at an expired one-time record (rejected) and an
expired annual record passing all earlier rules (accepted with
`recheck_days = 3`). -/
theorem C2_expiry_rules_witness :
    process_url_decide exC2one ≠ .accept ecC2one ∧
    extract_and_save_decide exC2ann = .accept { ecC2 with recheck_days := 3 } :=
  ⟨((C2_expiry_rules exC2one ecC2one rfl rfl).1 rfl).1 ecC2one,
   ((C2_expiry_rules exC2ann ecC2 rfl rfl).2 rfl (by with_unfolding_all decide)
      (by decide) (by with_unfolding_all decide) (by decide)).2⟩

/-- C3 counterexample: on a title containing the numeric marker `94 `
the single-query filter rejects as a ranking article while the batch
filter accepts, so the two call sites are not identical. -/
theorem C3_counterexample :
    process_url_decide exC3 = .reject (.rankingArticle "94 summer programs for teens") ∧
    extract_and_save_decide exC3 = .accept ecC3 ∧
    process_url_decide exC3 ≠ extract_and_save_decide exC3 := by
  with_unfolding_all decide

/-- C3 (amended): the two call sites compute the same decision, reason
and mutation for every extraction outcome whose card title contains
neither of the numeric markers `94 ` and `100 ` that only the
single-query marker list has. -/
theorem C3_call_sites_agree (e : Extraction)
    (hnum : ∀ ec : ECCard, e.ec_card = some ec →
      strContains ec.title.toLower "94 " = false ∧
      strContains ec.title.toLower "100 " = false) :
    process_url_decide e = extract_and_save_decide e := by
  unfold process_url_decide extract_and_save_decide
  split
  · rfl
  · split
    · rfl
    · rename_i hs x ec heq
      obtain ⟨h94, h100⟩ := hnum ec heq
      simp only [rankingMarkersSingle, rankingMarkersBatch, List.any_cons, List.any_nil,
        h94, h100, Bool.or_false]

/-- Witness for C3 on a title without numeric markers. -/
theorem C3_call_sites_agree_witness :
    process_url_decide exC2ann = extract_and_save_decide exC2ann :=
  C3_call_sites_agree exC2ann (fun ec h => by
    obtain rfl : ecC2 = ec := Option.some.inj h
    exact ⟨by with_unfolding_all decide, by with_unfolding_all decide⟩)

/-- One loop iteration either leaves the accumulator unchanged (skipped
or duplicate URL) or appends a fresh, non-denylisted URL together with
its `found` event. -/
theorem collectStep_cases (acc : List String × List Event) (r : SearchResult) :
    collectStep acc r = acc ∨
    (urlDenylisted r.url = false ∧ r.url ∉ acc.1 ∧
     collectStep acc r = (acc.1 ++ [r.url],
       acc.2 ++ [.found r.url (if r.title = "" then "Web Result" else r.title)])) := by
  by_cases hskip : (skip_patterns.any fun skip => strContains r.url.toLower skip) = true
  · left
    simp only [collectStep, hskip, if_true]
  · by_cases hmem : r.url ∈ acc.1
    · left
      simp only [collectStep, hskip, hmem, if_true, if_false]
      simp
    · right
      refine ⟨by simpa [urlDenylisted] using hskip, hmem, ?_⟩
      simp only [collectStep, hskip, hmem, if_false]
      simp

/-- Invariant of the collection loop: the URL list stays duplicate-free,
carries exactly one `found` event per member URL, and contains no
denylisted URL. -/
theorem collect_inv (l : List SearchResult) (us : List String) (es : List Event)
    (hn : us.Nodup)
    (hcount : ∀ u, es.countP (isFoundFor u) = if u ∈ us then 1 else 0)
    (hdeny : ∀ u ∈ us, urlDenylisted u = false) :
    (l.foldl collectStep (us, es)).1.Nodup ∧
    (∀ u, (l.foldl collectStep (us, es)).2.countP (isFoundFor u) =
      if u ∈ (l.foldl collectStep (us, es)).1 then 1 else 0) ∧
    (∀ u ∈ (l.foldl collectStep (us, es)).1, urlDenylisted u = false) := by
  induction l generalizing us es with
  | nil => exact ⟨hn, hcount, hdeny⟩
  | cons r t ih =>
    simp only [List.foldl_cons]
    rcases collectStep_cases (us, es) r with heq | ⟨hdny, hmem, heq⟩
    · simp only [heq]
      exact ih us es hn hcount hdeny
    · simp only [heq]
      apply ih
      · exact List.Nodup.append hn (List.nodup_singleton _)
          (fun a ha hb => by simp at hb; subst hb; exact hmem ha)
      · intro u
        rw [List.countP_append, hcount u]
        by_cases hu : u = r.url
        · subst hu
          simp [isFoundFor, hmem, List.countP_cons]
        · have hne : isFoundFor u
              (.found r.url (if r.title = "" then "Web Result" else r.title)) = false := by
            simp only [isFoundFor, beq_eq_false_iff_ne, ne_eq]
            exact fun h => hu h.symm
          simp [List.countP_cons, hne, hu, List.mem_append]
      · intro u hu
        rcases List.mem_append.1 hu with h1 | h2
        · exact hdeny u h1
        · simp at h2
          subst h2
          exact hdny

/-- C5: the collected URL set is duplicate-free with exactly one `found`
event per member URL; a denylisted URL is never collected, never gets a
`found` event, and never appears in the forwarded (capped) URL list for
any admissible set-iteration order; the forwarded list itself is
duplicate-free. -/
theorem C5_dedup_denylist (search_results : List (List SearchResult)) :
    (collectUrls search_results).1.Nodup ∧
    (∀ u, (collectUrls search_results).2.countP (isFoundFor u) =
      if u ∈ (collectUrls search_results).1 then 1 else 0) ∧
    (∀ u, urlDenylisted u = true →
      u ∉ (collectUrls search_results).1 ∧
      (collectUrls search_results).2.countP (isFoundFor u) = 0 ∧
      (∀ iterOrder : List String, iterOrder.Perm (collectUrls search_results).1 →
        u ∉ iterOrder.take 10)) ∧
    (∀ iterOrder : List String, iterOrder.Perm (collectUrls search_results).1 →
      (iterOrder.take 10).Nodup) := by
  obtain ⟨h1, h2, h3⟩ := collect_inv search_results.flatten [] []
    List.nodup_nil (by intro u; simp) (by intro u hu; simp at hu)
  unfold collectUrls
  refine ⟨h1, h2, ?_, ?_⟩
  · intro u hden
    have hnot : u ∉ (search_results.flatten.foldl collectStep ([], [])).1 := by
      intro hmem
      have hfalse := h3 u hmem
      rw [hden] at hfalse
      exact Bool.noConfusion hfalse
    refine ⟨hnot, ?_, ?_⟩
    · rw [h2 u, if_neg hnot]
    · intro iterOrder hperm htake
      exact hnot (hperm.mem_iff.1 (List.take_subset _ _ htake))
  · intro iterOrder hperm
    exact ((List.take_sublist _ _).nodup) (hperm.nodup_iff.2 h1)

/-- Witness for C5: the reddit URL of `c5sr` is excluded while the
unique accepted URL gets exactly one `found` event. -/
theorem C5_dedup_denylist_witness :
    "https://www.reddit.com/r/teens" ∉ (collectUrls c5sr).1 ∧
    (collectUrls c5sr).2.countP (isFoundFor "https://example.org/a") = 1 := by
  refine ⟨((C5_dedup_denylist c5sr).2.2.1 _ (by with_unfolding_all decide)).1, ?_⟩
  rw [(C5_dedup_denylist c5sr).2.1 "https://example.org/a"]
  with_unfolding_all decide

/-- C4 (amended): the forwarded URL list is capped at 10 and contains
only collected URLs, for every admissible set-iteration order; which 10
survive depends on that unspecified order, not on discovery order. -/
theorem C4_cap_forwarded (search_results : List (List SearchResult))
    (iterOrder : List String)
    (hperm : iterOrder.Perm (collectUrls search_results).1) :
    (iterOrder.take 10).length ≤ 10 ∧
    ∀ u ∈ iterOrder.take 10, u ∈ (collectUrls search_results).1 := by
  refine ⟨List.length_take_le 10 iterOrder, ?_⟩
  intro u hu
  exact hperm.mem_iff.1 (List.take_subset _ _ hu)

/-- Witness for C4 at the concrete fixture results and the identity
iteration order. -/
theorem C4_cap_forwarded_witness :
    ((collectUrls [c4results]).1.take 10).length ≤ 10 :=
  (C4_cap_forwarded [c4results] (collectUrls [c4results]).1 (List.Perm.refl _)).1

/-- C4 counterexample: with eleven discovered URLs and the reversed
iteration order (a permutation a Python set may present), the ten kept
URLs are not the first ten in discovery order. -/
theorem C4_counterexample :
    (collectUrls [c4results]).1 = c4urls ∧
    c4urls.reverse.Perm (collectUrls [c4results]).1 ∧
    c4urls.reverse.take 10 ≠ c4urls.take 10 := by
  have hurls : (collectUrls [c4results]).1 = c4urls := by with_unfolding_all decide
  refine ⟨hurls, ?_, by with_unfolding_all decide⟩
  rw [hurls]
  exact List.reverse_perm c4urls

/-- A list is a prefix of itself. -/
theorem isPrefixOf_self (l : List Char) : l.isPrefixOf l = true := by
  induction l with
  | nil => rfl
  | cons c t ih => simp [List.isPrefixOf, ih]

/-- The Python substring test finds a pattern that ends the text. -/
theorem listContains_suffix (pre pat : List Char) : listContains pat (pre ++ pat) = true := by
  induction pre with
  | nil =>
    cases pat with
    | nil => rfl
    | cons c t => simp [listContains, isPrefixOf_self]
  | cons c t ih => simp [listContains, ih]

/-- String version of `listContains_suffix`. -/
theorem strContains_suffix (a b : String) : strContains (a ++ b) b = true := by
  unfold strContains
  rw [String.data_append]
  exact listContains_suffix a.data b.data

/-- C6: every failure mode of one search query is absorbed locally as an
empty result list: transport errors, other exceptions, non-200 statuses
and malformed JSON inside the client, and any raised exception inside
`do_search`; and the batch always yields one (possibly empty) result
list per query, so no single failure aborts it. -/
theorem C6_search_failure_isolated :
    (∀ (m : String) (k : Nat), searxng_search (.clientError m) k = []) ∧
    (∀ (m : String) (k : Nat), searxng_search (.otherExc m) k = []) ∧
    (∀ (s : Nat) (b : Except String SearxPayload) (k : Nat), s ≠ 200 →
      searxng_search (.response s b) k = []) ∧
    (∀ (m : String) (k : Nat), searxng_search (.response 200 (.error m)) k = []) ∧
    (∀ (f : String → Except String (List SearchResult)) (q m : String),
      f q = .error m → (do_search f q).2 = []) ∧
    (∀ (f : String → Except String (List SearchResult)) (qs : List String),
      ((qs.map (do_search f)).map Prod.snd).length = qs.length) := by
  refine ⟨fun m k => rfl, fun m k => rfl, ?_, fun m k => rfl, ?_, ?_⟩
  · intro s b k hs
    simp [searxng_search, hs]
  · intro f q m hf
    simp [do_search, hf]
  · intro f qs
    simp

/-- Witness for C6 on a 500 response and a raising search oracle. -/
theorem C6_search_failure_isolated_witness :
    searxng_search (.response 500 (.ok payloadC10)) 10 = [] ∧
    (do_search (fun _ => .error "boom") "q").2 = [] :=
  ⟨C6_search_failure_isolated.2.2.1 500 (.ok payloadC10) 10 (by decide),
   C6_search_failure_isolated.2.2.2.2.1 (fun _ => .error "boom") "q" "boom" rfl⟩

/-- C7: a successful crawl whose markdown has fewer than 100 characters
stops before extraction in both call sites: the result is the
content-too-short error carrying the actual length, it does not depend
on the extraction or upsert oracles (the agent is never invoked), and
the single emitted event is an `error` event whose message contains
`Content too short: N chars`. -/
theorem C7_content_too_short (extractor : String → String → Extraction)
    (upsertErr : ECCard → Option String) (cr : CrawlResult)
    (hs : cr.success = true) (hlen : (cr.markdown.getD "").length < 100) :
    extract_and_save extractor upsertErr cr =
      .errorRes (.contentTooShort (cr.markdown.getD "").length) cr.url ∧
    (∀ extractor2 upsertErr2, extract_and_save extractor2 upsertErr2 cr =
      extract_and_save extractor upsertErr cr) ∧
    resultEvent (extract_and_save extractor upsertErr cr) =
      .error (cr.url ++ ": " ++
        ("Content too short: " ++ toString (cr.markdown.getD "").length ++ " chars")) ∧
    strContains
      (cr.url ++ ": " ++
        ("Content too short: " ++ toString (cr.markdown.getD "").length ++ " chars"))
      ("Content too short: " ++ toString (cr.markdown.getD "").length ++ " chars") = true ∧
    (∀ (crawler : String → CrawlResult) url extractor2 upsertErr2, crawler url = cr →
      process_url crawler extractor2 upsertErr2 url =
        .errorRes (.contentTooShort (cr.markdown.getD "").length) url) := by
  have hmain : extract_and_save extractor upsertErr cr =
      .errorRes (.contentTooShort (cr.markdown.getD "").length) cr.url := by
    unfold extract_and_save
    simp [hs, hlen]
  refine ⟨hmain, ?_, ?_, ?_, ?_⟩
  · intro extractor2 upsertErr2
    rw [hmain]
    unfold extract_and_save
    simp [hs, hlen]
  · rw [hmain]
    simp [resultEvent, Reason.msg]
  · exact strContains_suffix _ _
  · intro crawler url extractor2 upsertErr2 hcrawl
    unfold process_url
    rw [hcrawl]
    simp [hs, hlen]

/-- Witness for C7 at a 40-character crawl. -/
theorem C7_content_too_short_witness :
    extract_and_save exOracle upNone crC7 =
      .errorRes (.contentTooShort (crC7.markdown.getD "").length) crC7.url :=
  (C7_content_too_short exOracle upNone crC7 rfl (by decide)).1

/-- Setting a waiting task to in-flight raises the in-flight count by
one. -/
theorem inFlight_set_inSem (s : List TaskPhase) (i : Nat) (h : s.get? i = some .pre) :
    inFlight (s.set i .inSem) = inFlight s + 1 := by
  induction s generalizing i with
  | nil => simp at h
  | cons a t ih =>
    cases i with
    | zero =>
      simp only [List.get?_cons_zero, Option.some.injEq] at h
      subst h
      simp [inFlight, List.countP_cons]
    | succ n =>
      simp only [List.get?_cons_succ] at h
      simp only [List.set_cons_succ, inFlight, List.countP_cons]
      have := ih n h
      unfold inFlight at this
      omega

/-- Completing an in-flight task lowers the in-flight count by one. -/
theorem inFlight_set_post (s : List TaskPhase) (i : Nat) (h : s.get? i = some .inSem) :
    inFlight (s.set i .post) + 1 = inFlight s := by
  induction s generalizing i with
  | nil => simp at h
  | cons a t ih =>
    cases i with
    | zero =>
      simp only [List.get?_cons_zero, Option.some.injEq] at h
      subst h
      simp [inFlight, List.countP_cons]
    | succ n =>
      simp only [List.get?_cons_succ] at h
      simp only [List.set_cons_succ, inFlight, List.countP_cons]
      have := ih n h
      unfold inFlight at this
      omega

/-- C9: in every state reachable from any number of simultaneously ready
extraction tasks, at most 5 extraction calls are in flight; and
admission is a shared gate, not a partition: any waiting task may enter
whenever the global in-flight count is below 5. -/
theorem C9_semaphore_bound :
    (∀ (n : Nat) (s : List TaskPhase), SemReachable n s → inFlight s ≤ 5) ∧
    (∀ (s : List TaskPhase) (i : Nat), s.get? i = some .pre → inFlight s < 5 →
      SemStep s (s.set i .inSem)) := by
  constructor
  · intro n s hreach
    induction hreach with
    | refl =>
      have h0 : inFlight (List.replicate n TaskPhase.pre) = 0 := by
        unfold inFlight
        rw [List.countP_eq_zero]
        intro a ha
        rw [List.eq_of_mem_replicate ha]
        decide
      omega
    | step hr hstep ih =>
      cases hstep with
      | acquire i h hlt =>
        rw [inFlight_set_inSem _ i h]
        omega
      | leave i h =>
        have := inFlight_set_post _ i h
        omega
  · intro s i h hlt
    exact SemStep.acquire s i h hlt

/-- Witness for C9 at seven ready tasks in the initial state and one
admissible acquire step. -/
theorem C9_semaphore_bound_witness :
    inFlight (List.replicate 7 TaskPhase.pre) ≤ 5 ∧
    SemStep [TaskPhase.pre] ([TaskPhase.pre].set 0 .inSem) :=
  ⟨C9_semaphore_bound.1 7 _ SemReachable.refl,
   C9_semaphore_bound.2 [TaskPhase.pre] 0 rfl (by decide)⟩

/-- C10: on a 200 response the returned list has length
`min k |results|` plus up to 3 per infobox, so the `max_results` cap is
not re-applied after infobox URLs are appended; concretely, with
`max_results = 1` and a payload with one regular result and a one-URL
infobox, two results are returned. -/
theorem C10_infobox_exceeds_cap :
    (∀ (data : SearxPayload) (k : Nat),
      (searxng_search (.response 200 (.ok data)) k).length =
        min k data.results.length +
          ((data.infoboxes.map fun ib => min 3 ib.urls.length).sum)) ∧
    (searxng_search (.response 200 (.ok payloadC10)) 1).length = 2 := by
  constructor
  · intro data k
    simp [searxng_search, List.length_append, List.length_take, List.length_flatMap,
      List.length_map]
    congr 1
    apply List.map_congr_left
    intro ib _
    simp [Function.comp]
  · with_unfolding_all decide

/-- Every event the collection loop appends is a `found` event. -/
theorem collect_snd_found (l : List SearchResult) (us : List String) (es : List Event)
    (h : ∀ e ∈ es, ∃ u s2, e = .found u s2) :
    ∀ e ∈ (l.foldl collectStep (us, es)).2, ∃ u s2, e = .found u s2 := by
  induction l generalizing us es with
  | nil => exact h
  | cons r t ih =>
    simp only [List.foldl_cons]
    rcases collectStep_cases (us, es) r with heq | ⟨hdny, hmem, heq⟩
    · simp only [heq]
      exact ih us es h
    · simp only [heq]
      apply ih
      intro e he
      rcases List.mem_append.1 he with h1 | h2
      · exact h e h1
      · simp only [List.mem_singleton] at h2
        subst h2
        exact ⟨_, _, rfl⟩

/-- A predicate false on `found` events counts zero over the collection
loop's event output. -/
theorem collect_events_countP (srs : List (List SearchResult)) (p : Event → Bool)
    (hp : ∀ u s2, p (.found u s2) = false) :
    (collectUrls srs).2.countP p = 0 := by
  apply List.countP_eq_zero.2
  intro e he
  have hf : ∀ e2 ∈ (collectUrls srs).2, ∃ u s2, e2 = Event.found u s2 := by
    unfold collectUrls
    exact collect_snd_found _ [] [] (by intro e2 he2; simp at he2)
  obtain ⟨u, s2, rfl⟩ := hf e he
  simp [hp]

/-- A predicate false on the image of a map counts zero. -/
theorem countP_map_eq_zero {α : Type} (p : Event → Bool) (f : α → Event) (l : List α)
    (h : ∀ a, p (f a) = false) : (l.map f).countP p = 0 := by
  induction l with
  | nil => rfl
  | cons a t ih => simp [List.countP_cons, h, ih]

/-- The result loop emits exactly one `extracted` event per successful
result. -/
theorem countP_resultEvents_extracted (rs : List UrlResult) :
    (rs.map resultEvent).countP isExtractedEv = rs.countP isSuccess := by
  induction rs with
  | nil => rfl
  | cons r t ih =>
    cases r <;> simp [resultEvent, isExtractedEv, isSuccess, List.countP_cons, ih]

/-- The result loop never emits a `complete` event. -/
theorem countP_resultEvents_complete (rs : List UrlResult) :
    (rs.map resultEvent).countP isCompleteEv = 0 := by
  induction rs with
  | nil => rfl
  | cons r t ih =>
    cases r <;> simp [resultEvent, isCompleteEv, List.countP_cons, ih]

/-- C8 (amended): a run that passes the configuration check and whose
initialization (component construction and `sync.connect()`) does not
raise emits exactly one `complete` event, carrying the number of
accepted (`extracted`) records, even when that number is zero; it is
the last event when `sync.close()` does not raise, and otherwise is
followed only by the terminal error event for the `close()` exception.
A configured run whose initialization raises ends with an error event
and emits no `complete` event, as does a run that fails configuration
(see the counterexample). -/
theorem C8_complete_last (query : String) (dbEnv : Option String) (year : Nat)
    (searchFn : String → Except String (List SearchResult)) (iterOrder : List String)
    (crawlBatch : List String → List CrawlResult)
    (extractor : String → String → Extraction) (upsertErr : ECCard → Option String)
    (hdb : dbConfigured dbEnv = true) :
    (∀ closeErr : Option String,
      (mainEvents query dbEnv year none searchFn iterOrder crawlBatch extractor upsertErr
        closeErr).countP isCompleteEv = 1) ∧
    ((mainEvents query dbEnv year none searchFn iterOrder crawlBatch extractor upsertErr
        none).getLast? =
      some (.complete ((mainEvents query dbEnv year none searchFn iterOrder crawlBatch
        extractor upsertErr none).countP isExtractedEv))) ∧
    (∀ m : String,
      (mainEvents query dbEnv year none searchFn iterOrder crawlBatch extractor upsertErr
        (some m)).getLast? = some (.error m) ∧
      (mainEvents query dbEnv year none searchFn iterOrder crawlBatch extractor upsertErr
        (some m)).dropLast.getLast? =
        some (.complete ((mainEvents query dbEnv year none searchFn iterOrder crawlBatch
          extractor upsertErr (some m)).countP isExtractedEv))) ∧
    (∀ (m : String) (closeErr : Option String),
      (mainEvents query dbEnv year (some m) searchFn iterOrder crawlBatch extractor upsertErr
        closeErr).countP isCompleteEv = 0 ∧
      (mainEvents query dbEnv year (some m) searchFn iterOrder crawlBatch extractor upsertErr
        closeErr).getLast? = some (.error m)) := by
  refine ⟨?_, ?_, ?_, ?_⟩
  · intro closeErr
    simp only [mainEvents, hdb, Bool.true_eq_false, if_false]
    rw [List.map_map]
    cases closeErr with
    | none =>
      simp only [List.countP_append]
      rw [countP_resultEvents_complete]
      rw [collect_events_countP _ _ (fun u s2 => rfl)]
      rw [countP_map_eq_zero _ _ _ (fun q => rfl)]
      rw [countP_map_eq_zero _ Event.analyzing _ (fun u => rfl)]
      simp [isCompleteEv]
    | some m =>
      simp only [List.countP_append]
      rw [countP_resultEvents_complete]
      rw [collect_events_countP _ _ (fun u s2 => rfl)]
      rw [countP_map_eq_zero _ _ _ (fun q => rfl)]
      rw [countP_map_eq_zero _ Event.analyzing _ (fun u => rfl)]
      simp [isCompleteEv]
  · simp only [mainEvents, hdb, Bool.true_eq_false, if_false, List.append_nil]
    rw [List.getLast?_concat]
    refine congrArg _ (congrArg _ ?_)
    rw [eq_comm]
    rw [List.map_map]
    simp only [List.countP_append]
    rw [countP_resultEvents_extracted]
    rw [collect_events_countP _ _ (fun u s2 => rfl)]
    rw [countP_map_eq_zero _ _ _ (fun q => rfl)]
    rw [countP_map_eq_zero _ Event.analyzing _ (fun u => rfl)]
    simp [isExtractedEv]
  · intro m
    constructor
    · simp only [mainEvents, hdb, Bool.true_eq_false, if_false]
      rw [List.getLast?_concat]
    · simp only [mainEvents, hdb, Bool.true_eq_false, if_false]
      rw [List.dropLast_concat]
      rw [List.getLast?_concat]
      refine congrArg _ (congrArg _ ?_)
      rw [eq_comm]
      rw [List.map_map]
      simp only [List.countP_append]
      rw [countP_resultEvents_extracted]
      rw [collect_events_countP _ _ (fun u s2 => rfl)]
      rw [countP_map_eq_zero _ _ _ (fun q => rfl)]
      rw [countP_map_eq_zero _ Event.analyzing _ (fun u => rfl)]
      simp [isExtractedEv]
  · intro m closeErr
    constructor
    · simp only [mainEvents, hdb, Bool.true_eq_false, if_false]
      simp [List.countP_append, List.countP_cons, isCompleteEv]
    · simp only [mainEvents, hdb, Bool.true_eq_false, if_false]
      rw [List.getLast?_concat]

/-- Witness for C8 on a concrete configured run, with `close()`
succeeding and with `close()` raising. -/
theorem C8_complete_last_witness :
    (mainEvents "robotics" (some "postgres://host/db") 2026 none c8SearchFn
      ["https://example.org/a"] c8Crawl exOracle upNone none).getLast? =
      some (.complete ((mainEvents "robotics" (some "postgres://host/db") 2026 none c8SearchFn
        ["https://example.org/a"] c8Crawl exOracle upNone none).countP isExtractedEv)) ∧
    (mainEvents "robotics" (some "postgres://host/db") 2026 none c8SearchFn
      ["https://example.org/a"] c8Crawl exOracle upNone (some "close failed")).getLast? =
      some (.error "close failed") :=
  ⟨(C8_complete_last "robotics" (some "postgres://host/db") 2026 c8SearchFn
      ["https://example.org/a"] c8Crawl exOracle upNone (by with_unfolding_all decide)).2.1,
   ((C8_complete_last "robotics" (some "postgres://host/db") 2026 c8SearchFn
      ["https://example.org/a"] c8Crawl exOracle upNone (by with_unfolding_all decide)).2.2.1
      "close failed").1⟩

/-- C8 counterexample: a run whose configuration check fails (absent
`DATABASE_URL`) emits a `plan` and an `error` event and no `complete`
event at all, so the claim does not hold for configuration-failure
runs. -/
theorem C8_counterexample :
    dbConfigured none = false ∧
    mainEvents "robotics" none 2026 none c8SearchFn [] (fun _ => []) exOracle upNone none =
      [.plan ("Analyzing request: " ++ sQuote ++ "robotics" ++ sQuote),
       .error "DATABASE_URL not found"] ∧
    (mainEvents "robotics" none 2026 none c8SearchFn [] (fun _ => []) exOracle upNone
      none).countP isCompleteEv = 0 :=
  ⟨rfl, rfl, rfl⟩
